import Mathlib

/-
  Shallow embedding of the cycle-timebase and critical-section functions of
  src/cm4u_core.h (Cortex-M4 utilities, cm4u prefix).

  Machine integers are modelled as Nat with explicit reduction modulo 2^32
  (uint32_t) and 2^64 (uint64_t) exactly where the C code wraps.  The
  hardware registers touched by the code (DEMCR TRCENA bit, DWT CTRL
  CYCCNTENA bit, DWT CYCCNT, PRIMASK) are gathered in an explicit state
  record.  The compile-time presence of the DWT unit (the defined(DWT)
  preprocessor test) is modelled as a Bool parameter.
-/

/-- The uint32 modulus, 2 to the power 32. -/
def two32 : Nat := 4294967296

/-- The uint64 modulus, 2 to the power 64. -/
def two64 : Nat := 18446744073709551616

/-- C unsigned 32-bit subtraction a - b: wraps modulo 2^32.  The second
argument is reduced first so the Nat subtraction never truncates. -/
def usub32 (a b : Nat) : Nat := (a + two32 - b % two32) % two32

/-- cm4u_us_to_cycles (src/cm4u_core.h lines 263-269): widens both uint32
arguments to uint64, multiplies (the product wraps modulo 2^64 as any
uint64 arithmetic does), divides by 1000000, truncates to uint32. -/
def cm4u_us_to_cycles (us core_clock_hz : Nat) : Nat :=
  (core_clock_hz * us % two64) / 1000000 % two32

/-- cm4u_ms_to_cycles (src/cm4u_core.h lines 272-278): same as
cm4u_us_to_cycles with divisor 1000. -/
def cm4u_ms_to_cycles (ms core_clock_hz : Nat) : Nat :=
  (core_clock_hz * ms % two64) / 1000 % two32

/-- The hardware register state touched by the embedded functions. -/
structure Cm4uState where
  demcr_trcena : Bool
  cyccnt_ena   : Bool
  cyccnt       : Nat
  primask      : Nat
deriving Repr, DecidableEq

/-- cm4u_dwt_init (src/cm4u_core.h lines 220-236).  When the DWT unit is
present (defined(DWT) and defined(CoreDebug)): sets the TRCENA bit if not
already set, resets CYCCNT to zero, sets the CYCCNTENA bit, returns true.
When absent: returns false and touches nothing. -/
def cm4u_dwt_init (dwt : Bool) (s : Cm4uState) : Bool × Cm4uState :=
  if dwt then
    (true, { s with demcr_trcena := true, cyccnt := 0, cyccnt_ena := true })
  else
    (false, s)

/-- cm4u_dwt_get_cycles (src/cm4u_core.h lines 239-246): reads the 32-bit
CYCCNT register when the DWT unit is present, returns 0 otherwise. -/
def cm4u_dwt_get_cycles (dwt : Bool) (s : Cm4uState) : Nat :=
  if dwt then s.cyccnt % two32 else 0

/-- cm4u_profile_cycles_start (src/cm4u_core.h lines 337-340): alias for
cm4u_dwt_get_cycles. -/
def cm4u_profile_cycles_start (dwt : Bool) (s : Cm4uState) : Nat :=
  cm4u_dwt_get_cycles dwt s

/-- cm4u_profile_cycles_end (src/cm4u_core.h lines 342-346): reads the
counter and returns the uint32 difference now - start_cycles. -/
def cm4u_profile_cycles_end (dwt : Bool) (s : Cm4uState) (start_cycles : Nat) : Nat :=
  usub32 (cm4u_dwt_get_cycles dwt s) start_cycles

/-- cm4u_critical_enter (src/cm4u_core.h lines 75-80): returns the prior
PRIMASK value and sets PRIMASK to 1 (interrupts disabled). -/
def cm4u_critical_enter (s : Cm4uState) : Nat × Cm4uState :=
  (s.primask, { s with primask := 1 })

/-- cm4u_critical_exit (src/cm4u_core.h lines 83-86): writes the saved
value back to PRIMASK. -/
def cm4u_critical_exit (primask : Nat) (s : Cm4uState) : Cm4uState :=
  { s with primask := primask }

/-- The spin loop of cm4u_delay_cycles (src/cm4u_core.h lines 249-260).
The counter is hardware-incremented between reads, so the sequence of
CYCCNT values seen by successive reads is an arbitrary trace r; read 0 is
the initial read that produced start.  The loop keeps re-reading while the
uint32 difference current - start is below cycles.  Fuel bounds the number
of iterations so the function is total; some i means the loop exited at
read i. -/
def cm4u_delay_cycles_loop (r : Nat → Nat) (start cycles : Nat) : Nat → Nat → Option Nat
  | 0, _ => none
  | fuel + 1, i =>
    if usub32 (r i) start < cycles then
      cm4u_delay_cycles_loop r start cycles fuel (i + 1)
    else
      some i

/-- cm4u_delay_cycles (src/cm4u_core.h lines 249-260), DWT present: takes
the start reading (read 0 of the trace) and spins from read 1 on. -/
def cm4u_delay_cycles (r : Nat → Nat) (cycles fuel : Nat) : Option Nat :=
  cm4u_delay_cycles_loop r (r 0 % two32) cycles fuel 1

/- ------------------------------------------------------------------ -/
/- Theorems                                                            -/
/- ------------------------------------------------------------------ -/

/-- Helper: the counter read is always a 32-bit value. -/
theorem cm4u_dwt_get_cycles_lt (dwt : Bool) (s : Cm4uState) :
    cm4u_dwt_get_cycles dwt s < two32 := by
  cases dwt <;> simp [cm4u_dwt_get_cycles, two32] <;> omega

/-- Claim C1: for 32-bit inputs whose mathematical product is below 2^64,
cm4u_us_to_cycles returns floor(core_clock_hz * microseconds / 1000000)
modulo 2^32. -/
theorem cm4u_us_to_cycles_correct (us hz : Nat)
    (h1 : us < two32) (h2 : hz < two32) (h3 : hz * us < two64) :
    cm4u_us_to_cycles us hz = hz * us / 1000000 % two32 := by
  unfold cm4u_us_to_cycles
  rw [Nat.mod_eq_of_lt h3]

/-- Witness for C1 at us = 10, hz = 168000000. -/
theorem cm4u_us_to_cycles_correct_witness :
    (10 : Nat) < two32 ∧ (168000000 : Nat) < two32 ∧
      (168000000 * 10 : Nat) < two64 ∧
      cm4u_us_to_cycles 10 168000000 = 168000000 * 10 / 1000000 % two32 :=
  ⟨by decide, by decide, by decide,
    cm4u_us_to_cycles_correct 10 168000000 (by decide) (by decide) (by decide)⟩

/-- Claim C2: for a first reading a and a true elapsed cycle count e below
2^32 (at most one wraparound), the later 32-bit reading is (a + e) mod
2^32 and cm4u_profile_cycles_end recovers exactly e. -/
theorem cm4u_profile_cycles_end_wraparound_correct (a e : Nat)
    (h1 : a < two32) (h2 : e < two32) :
    cm4u_profile_cycles_end true
      { demcr_trcena := true, cyccnt_ena := true,
        cyccnt := (a + e) % two32, primask := 0 } a = e := by
  simp only [cm4u_profile_cycles_end, cm4u_dwt_get_cycles, usub32, two32,
    if_true] at *
  omega

/-- Witness for C2 at a = 4294967280 (0xFFFFFFF0) and e = 32. -/
theorem cm4u_profile_cycles_end_wraparound_correct_witness :
    (4294967280 : Nat) < two32 ∧ (32 : Nat) < two32 ∧
      cm4u_profile_cycles_end true
        { demcr_trcena := true, cyccnt_ena := true,
          cyccnt := (4294967280 + 32) % two32, primask := 0 } 4294967280 = 32 :=
  ⟨by decide, by decide,
    cm4u_profile_cycles_end_wraparound_correct 4294967280 32 (by decide) (by decide)⟩

/-- Helper for C3: whenever the spin loop exits at read j, the uint32
difference between reading j and the start value is at least cycles. -/
theorem cm4u_delay_cycles_loop_exit (r : Nat → Nat) (start cycles : Nat) :
    ∀ fuel i j, cm4u_delay_cycles_loop r start cycles fuel i = some j →
      cycles ≤ usub32 (r j) start := by
  intro fuel
  induction fuel with
  | zero =>
    intro i j h
    simp [cm4u_delay_cycles_loop] at h
  | succ n ih =>
    intro i j h
    rw [cm4u_delay_cycles_loop] at h
    split at h
    · exact ih (i + 1) j h
    · next hge =>
      cases h
      omega

/-- Claim C3: if cm4u_delay_cycles exits its spin loop at read i, then the
32-bit unsigned difference between the reading at exit and the start
reading is at least cycles: the delay never ends before cycles cycles
have elapsed (modulo 2^32). -/
theorem cm4u_delay_cycles_exit_elapsed_ge (r : Nat → Nat) (cycles fuel i : Nat)
    (h : cm4u_delay_cycles r cycles fuel = some i) :
    cycles ≤ usub32 (r i) (r 0 % two32) :=
  cm4u_delay_cycles_loop_exit r (r 0 % two32) cycles fuel 1 i h

/-- Witness for C3: a counter advancing by 1 per read, cycles = 3,
fuel = 10 exits at read 3 with elapsed 3. -/
theorem cm4u_delay_cycles_exit_elapsed_ge_witness :
    cm4u_delay_cycles (fun n => n) 3 10 = some 3 ∧
      3 ≤ usub32 ((fun n => n) 3) ((fun n => n) 0 % two32) :=
  ⟨by decide, cm4u_delay_cycles_exit_elapsed_ge (fun n => n) 3 10 3 (by decide)⟩

/-- Claim C4: for all 32-bit inputs, cm4u_ms_to_cycles returns
floor(core_clock_hz * milliseconds / 1000) modulo 2^32; no precondition
on the size of the product is needed because the uint64 intermediate
cannot overflow for uint32 operands. -/
theorem cm4u_ms_to_cycles_correct (ms hz : Nat)
    (h1 : ms < two32) (h2 : hz < two32) :
    cm4u_ms_to_cycles ms hz = hz * ms / 1000 % two32 := by
  unfold cm4u_ms_to_cycles
  have h3 : hz * ms < two64 := by
    have h4 : hz * ms < two32 * two32 :=
      Nat.mul_lt_mul_of_lt_of_le h2 (Nat.le_of_lt h1) (by simp [two32])
    simpa [two32, two64] using h4
  rw [Nat.mod_eq_of_lt h3]

/-- Witness for C4 at ms = 1, hz = 168000000. -/
theorem cm4u_ms_to_cycles_correct_witness :
    (1 : Nat) < two32 ∧ (168000000 : Nat) < two32 ∧
      cm4u_ms_to_cycles 1 168000000 = 168000000 * 1 / 1000 % two32 :=
  ⟨by decide, by decide,
    cm4u_ms_to_cycles_correct 1 168000000 (by decide) (by decide)⟩

/-- Counterexample for claim C5 as stated: starting from reading
0xFFFFFFF0 = 4294967280 and advancing the 32-bit counter by exactly 32
increments, the later reading is NOT 0x0000000F = 15 (it is 16), so the
claimed conjunction is false. -/
theorem cm4u_wrap_scenario_claim_false :
    ¬ ((4294967280 + 32) % two32 = 15 ∧
       cm4u_profile_cycles_end true
         { demcr_trcena := true, cyccnt_ena := true,
           cyccnt := (4294967280 + 32) % two32, primask := 0 } 4294967280 = 32) := by
  decide

/-- Claim C5 amended: starting from reading 0xFFFFFFF0 = 4294967280 and
advancing by exactly 32 increments, the later reading b equals
0x00000010 = 16 (wrapped), and the 32-bit unsigned subtraction b - a
computed by cm4u_profile_cycles_end yields 32. -/
theorem cm4u_wrap_scenario_amended :
    (4294967280 + 32) % two32 = 16 ∧
      cm4u_profile_cycles_end true
        { demcr_trcena := true, cyccnt_ena := true,
          cyccnt := (4294967280 + 32) % two32, primask := 0 } 4294967280 = 32 := by
  decide

/-- Claim C6: with the DWT unit absent, cm4u_dwt_init returns false and
leaves the state untouched, and cm4u_dwt_get_cycles returns the sentinel
0 in every state. -/
theorem cm4u_dwt_absent_behavior :
    ∀ s : Cm4uState,
      cm4u_dwt_init false s = (false, s) ∧ cm4u_dwt_get_cycles false s = 0 := by
  intro s
  exact ⟨rfl, rfl⟩

/-- Claim C7: cm4u_profile_cycles_end applied to the value of
cm4u_profile_cycles_start with no intervening counter advance returns 0;
in general, adding the start value back to the result recovers the
current counter reading modulo 2^32, i.e. the result is the 32-bit
unsigned difference reading - start. -/
theorem cm4u_profile_roundtrip (dwt : Bool) (s : Cm4uState) (start : Nat)
    (h : start < two32) :
    cm4u_profile_cycles_end dwt s (cm4u_profile_cycles_start dwt s) = 0 ∧
      (cm4u_profile_cycles_end dwt s start + start) % two32 =
        cm4u_dwt_get_cycles dwt s := by
  have hlt := cm4u_dwt_get_cycles_lt dwt s
  constructor
  · simp only [cm4u_profile_cycles_end, cm4u_profile_cycles_start, usub32, two32] at *
    omega
  · simp only [cm4u_profile_cycles_end, usub32, two32] at *
    omega

/-- Witness for C7 at a concrete state and start value. -/
theorem cm4u_profile_roundtrip_witness :
    (40 : Nat) < two32 ∧
      (cm4u_profile_cycles_end true
          { demcr_trcena := true, cyccnt_ena := true, cyccnt := 100, primask := 0 }
          (cm4u_profile_cycles_start true
            { demcr_trcena := true, cyccnt_ena := true, cyccnt := 100, primask := 0 }) = 0 ∧
        (cm4u_profile_cycles_end true
            { demcr_trcena := true, cyccnt_ena := true, cyccnt := 100, primask := 0 } 40
          + 40) % two32 =
          cm4u_dwt_get_cycles true
            { demcr_trcena := true, cyccnt_ena := true, cyccnt := 100, primask := 0 }) :=
  ⟨by decide,
    cm4u_profile_roundtrip true
      { demcr_trcena := true, cyccnt_ena := true, cyccnt := 100, primask := 0 }
      40 (by decide)⟩

/-- Claim C8: cm4u_critical_enter returns the prior PRIMASK value and
leaves PRIMASK set to 1; feeding that return value to cm4u_critical_exit
restores the entire register state, so the pair is a round trip. -/
theorem cm4u_critical_section_roundtrip :
    ∀ s : Cm4uState,
      (cm4u_critical_enter s).1 = s.primask ∧
        (cm4u_critical_enter s).2.primask = 1 ∧
        cm4u_critical_exit (cm4u_critical_enter s).1 (cm4u_critical_enter s).2 = s := by
  intro s
  refine ⟨rfl, rfl, ?_⟩
  cases s
  rfl

/-- Claim C9: with a 168 MHz clock, cm4u_us_to_cycles at 10 microseconds
returns 1680 and cm4u_ms_to_cycles at 1 millisecond returns 168000. -/
theorem cm4u_conversion_concrete_values :
    cm4u_us_to_cycles 10 168000000 = 1680 ∧
      cm4u_ms_to_cycles 1 168000000 = 168000 := by
  decide

/-- Claim C10: when 1000 * milliseconds fits in a uint32, converting
1000 * ms microseconds agrees with converting ms milliseconds. -/
theorem cm4u_us_ms_to_cycles_agree (ms hz : Nat)
    (h1 : ms ≤ (two32 - 1) / 1000) (h2 : hz < two32) :
    cm4u_us_to_cycles (1000 * ms) hz = cm4u_ms_to_cycles ms hz := by
  have hms : ms < two32 := by
    simp only [two32] at *
    omega
  have hmul : 1000 * ms < two32 := by
    simp only [two32] at *
    omega
  have hp1 : hz * (1000 * ms) < two64 := by
    have h4 : hz * (1000 * ms) < two32 * two32 :=
      Nat.mul_lt_mul_of_lt_of_le h2 (Nat.le_of_lt hmul) (by simp [two32])
    simpa [two32, two64] using h4
  have hp2 : hz * ms < two64 := by
    have h4 : hz * ms < two32 * two32 :=
      Nat.mul_lt_mul_of_lt_of_le h2 (Nat.le_of_lt hms) (by simp [two32])
    simpa [two32, two64] using h4
  unfold cm4u_us_to_cycles cm4u_ms_to_cycles
  rw [Nat.mod_eq_of_lt hp1, Nat.mod_eq_of_lt hp2]
  have hkey : hz * (1000 * ms) / 1000000 = hz * ms / 1000 := by
    have : hz * (1000 * ms) = 1000 * (hz * ms) := by ring
    rw [this]
    have h6 : (1000000 : Nat) = 1000 * 1000 := by norm_num
    rw [h6]
    exact Nat.mul_div_mul_left (hz * ms) 1000 (by norm_num)
  rw [hkey]

/-- Witness for C10 at ms = 1, hz = 168000000. -/
theorem cm4u_us_ms_to_cycles_agree_witness :
    (1 : Nat) ≤ (two32 - 1) / 1000 ∧ (168000000 : Nat) < two32 ∧
      cm4u_us_to_cycles (1000 * 1) 168000000 = cm4u_ms_to_cycles 1 168000000 :=
  ⟨by decide, by decide,
    cm4u_us_ms_to_cycles_agree 1 168000000 (by decide) (by decide)⟩
